import Mathlib

/-!
Shallow embedding of the two-player Tic-Tac-Toe engine from `src/main.py`.

The board is the Python `Board` class: a 3x3 list of lists of integers
(`EMPTY = 0`, `PLAYER_X = 1`, `PLAYER_O = 2`) plus a `marked_squares`
counter.  Python indexing can raise `IndexError`, so the cell accessors
and `mark_square` return `Option` (`none` models a raised exception); on
the well-formed 3x3 boards the program actually builds they always
return `some`.  `Game` is the Python `Game` class restricted to the state
the logic reads (`board`, `current_player`, `game_over`; the `gamemode`
field is a constant string never read by the logic and is omitted, and
drawing calls have no effect on this state).  `Game.attemptMove`
is the body of the `MOUSEBUTTONDOWN` handler of `Main.run` expressed at
(row, col) level: the `game_over` guard, the availability pre-check,
`make_move`, and the subsequent draw check.
-/

namespace TicTacToe

/-- Python constant `WIDTH = 600`. -/
def WIDTH : Nat := 600

/-- Python constant `HEIGHT = 600`. -/
def HEIGHT : Nat := 600

/-- Python constant `BOARD_ROWS = 3`. -/
def BOARD_ROWS : Nat := 3

/-- Python constant `BOARD_COLS = 3`. -/
def BOARD_COLS : Nat := 3

/-- Python constant `SQUARE_SIZE = WIDTH // BOARD_COLS` (integer division). -/
def SQUARE_SIZE : Nat := WIDTH / BOARD_COLS

/-- Python constant `PLAYER_X = 1`. -/
def PLAYER_X : Nat := 1

/-- Python constant `PLAYER_O = 2`. -/
def PLAYER_O : Nat := 2

/-- Python constant `EMPTY = 0`. -/
def EMPTY : Nat := 0

/-- The `Board` class: `self.squares` (a list of row lists) and
`self.marked_squares`. -/
structure Board where
  squares : List (List Nat)
  marked_squares : Nat
deriving DecidableEq

/-- `Board.__init__`: a 3x3 grid of `EMPTY` and a zero counter. -/
def Board.init : Board :=
  { squares := [[EMPTY, EMPTY, EMPTY], [EMPTY, EMPTY, EMPTY], [EMPTY, EMPTY, EMPTY]],
    marked_squares := 0 }

/-- `self.squares[row][col]` as a read; `none` models a raised
`IndexError` (negative Python indices do not arise: all callers pass
non-negative coordinates). -/
def Board.getCell? (b : Board) (row col : Nat) : Option Nat :=
  match b.squares.get? row with
  | some r => r.get? col
  | none => none

/-- `Board.mark_square`: `self.squares[row][col] = player` then
`self.marked_squares += 1`; `none` models the `IndexError` raised by an
out-of-range assignment (in which case the counter is not touched). -/
def Board.mark_square (b : Board) (row col player : Nat) : Option Board :=
  match b.squares.get? row with
  | none => none
  | some r =>
    if col < r.length then
      some { squares := b.squares.set row (r.set col player),
             marked_squares := b.marked_squares + 1 }
    else none

/-- `Board.is_square_available`: `self.squares[row][col] == EMPTY`;
`none` models a raised `IndexError`. -/
def Board.is_square_available (b : Board) (row col : Nat) : Option Bool :=
  (b.getCell? row col).map (fun v => v == EMPTY)

/-- `Board.is_board_full`: `self.marked_squares == 9`. -/
def Board.is_board_full (b : Board) : Bool :=
  b.marked_squares == 9

/-- `Board.is_board_empty`: `self.marked_squares == 0`. -/
def Board.is_board_empty (b : Board) : Bool :=
  b.marked_squares == 0

/-- One equality test `self.squares[r][c] == player` inside `check_win`.
On the 3x3 boards the program builds the access is always in range; on a
malformed board Python would raise where this returns `false`, a case
that never arises below. -/
def Board.cellIs (b : Board) (row col player : Nat) : Bool :=
  b.getCell? row col == some player

/-- `Board.check_win`: vertical loop, horizontal loop, then the two
diagonals, each line a 3-way equality check against `player`. -/
def Board.check_win (b : Board) (player : Nat) : Bool :=
  ((List.range BOARD_COLS).any fun col =>
      b.cellIs 0 col player && b.cellIs 1 col player && b.cellIs 2 col player)
  || ((List.range BOARD_ROWS).any fun row =>
      b.cellIs row 0 player && b.cellIs row 1 player && b.cellIs row 2 player)
  || (b.cellIs 0 0 player && b.cellIs 1 1 player && b.cellIs 2 2 player)
  || (b.cellIs 0 2 player && b.cellIs 1 1 player && b.cellIs 2 0 player)

/-- `Board.get_empty_squares`: all available cells in row-major order. -/
def Board.get_empty_squares (b : Board) : List (Nat × Nat) :=
  ((List.range BOARD_ROWS).flatMap fun row =>
    (List.range BOARD_COLS).filterMap fun col =>
      if b.is_square_available row col == some true then some (row, col) else none)

/-- The `Game` class state read by the logic: `self.board`,
`self.current_player`, `self.game_over`. -/
structure Game where
  board : Board
  current_player : Nat
  game_over : Bool
deriving DecidableEq

/-- `Game.__init__`: fresh board, `PLAYER_X` to move, not over. -/
def Game.init : Game :=
  { board := Board.init, current_player := PLAYER_X, game_over := false }

/-- `Game.make_move`: mark the square for `current_player`, set
`game_over` if that player now wins, then unconditionally
`self.current_player = (self.current_player % 2) + 1`. -/
def Game.make_move (g : Game) (row col : Nat) : Option Game :=
  match g.board.mark_square row col g.current_player with
  | none => none
  | some b =>
    some { board := b,
           current_player := (g.current_player % 2) + 1,
           game_over := if b.check_win g.current_player then true else g.game_over }

/-- `Game.restart`: fresh board, `PLAYER_X` to move, `game_over` cleared
(the screen fill and line drawing have no effect on this state). -/
def Game.restart (_g : Game) : Game :=
  { board := Board.init, current_player := PLAYER_X, game_over := false }

/-- The `MOUSEBUTTONDOWN` handler body of `Main.run` at (row, col) level:
if the game is over nothing happens; otherwise if the clicked square is
available, `make_move` runs and then a full board with no fresh win is
declared a draw (`game_over = True`). -/
def Game.attemptMove (g : Game) (row col : Nat) : Option Game :=
  if g.game_over then some g
  else
    match g.board.is_square_available row col with
    | none => none
    | some avail =>
      if avail then
        match g.make_move row col with
        | none => none
        | some g1 =>
          if (!g1.game_over) && g1.board.is_board_full then
            some { g1 with game_over := true }
          else
            some g1
      else some g

/-- The pixel-to-cell conversion of `Main.run`:
`clicked_row = mouseY // SQUARE_SIZE`, `clicked_col = mouseX // SQUARE_SIZE`. -/
def handleClick (g : Game) (x y : Nat) : Option Game :=
  g.attemptMove (y / SQUARE_SIZE) (x / SQUARE_SIZE)

/-- The user events the `Main.run` loop reacts to (besides quitting). -/
inductive Event where
  | mouseDown (x y : Nat)
  | keyR
deriving DecidableEq

/-- One iteration of the event-processing part of `Main.run` on a single
event. -/
def step (g : Game) : Event → Option Game
  | Event.mouseDown x y => handleClick g x y
  | Event.keyR => some g.restart

/-- Folding `attemptMove` over a list of (row, col) clicks. -/
def playMoves (g : Game) : List (Nat × Nat) → Option Game
  | [] => some g
  | m :: rest =>
    match g.attemptMove m.1 m.2 with
    | none => none
    | some g1 => playMoves g1 rest

/-- A move sequence is valid from `g` when each click lands, with the
game still running, on an available cell (and is therefore actually
applied). -/
def validMoves (g : Game) : List (Nat × Nat) → Bool
  | [] => true
  | m :: rest =>
    !g.game_over && (g.board.is_square_available m.1 m.2 == some true) &&
    (match g.attemptMove m.1 m.2 with
     | none => false
     | some g1 => validMoves g1 rest)

/-- Well-formedness of the grid: exactly 3 rows of exactly 3 cells, as
every board the program builds has. -/
def Board.WF (b : Board) : Prop :=
  b.squares.length = 3 ∧ ∀ r ∈ b.squares, r.length = 3

/-- The number of non-`EMPTY` cells of the grid. -/
def Board.countNonEmpty (b : Board) : Nat :=
  (b.squares.map (fun r => r.countP (fun v => !(v == EMPTY)))).sum

/-- The 8 canonical lines: 3 rows, 3 columns, 2 diagonals. -/
def linesSpec : List (List (Nat × Nat)) :=
  [ [(0, 0), (0, 1), (0, 2)], [(1, 0), (1, 1), (1, 2)], [(2, 0), (2, 1), (2, 2)],
    [(0, 0), (1, 0), (2, 0)], [(0, 1), (1, 1), (2, 1)], [(0, 2), (1, 2), (2, 2)],
    [(0, 0), (1, 1), (2, 2)], [(0, 2), (1, 1), (2, 0)] ]

/-- The specification's reading of `checkWin`: some canonical line has
all three of its cells equal to `player`. -/
def check_win_spec (b : Board) (player : Nat) : Prop :=
  ∃ line ∈ linesSpec, ∀ cell ∈ line, b.getCell? cell.1 cell.2 = some player

/-- The controller invariant: well-formed grid, counter equal to the
true number of non-empty cells, and a real player to move. -/
def Inv (g : Game) : Prop :=
  g.board.WF ∧ g.board.marked_squares = g.board.countNonEmpty ∧
    (g.current_player = PLAYER_X ∨ g.current_player = PLAYER_O)

/-- A well-formed grid is literally three rows of three cells. -/
lemma Board.WF.destruct {b : Board} (h : b.WF) :
    ∃ x0 x1 x2 x3 x4 x5 x6 x7 x8,
      b.squares = [[x0, x1, x2], [x3, x4, x5], [x6, x7, x8]] := by
  obtain ⟨hlen, hrows⟩ := h
  obtain ⟨r0, r1, r2, hsq⟩ := List.length_eq_three.mp hlen
  rw [hsq] at hrows
  obtain ⟨a0, a1, a2, h0⟩ := List.length_eq_three.mp (hrows r0 (by simp))
  obtain ⟨b0, b1, b2, h1⟩ := List.length_eq_three.mp (hrows r1 (by simp))
  obtain ⟨c0, c1, c2, h2⟩ := List.length_eq_three.mp (hrows r2 (by simp))
  exact ⟨a0, a1, a2, b0, b1, b2, c0, c1, c2, by rw [hsq, h0, h1, h2]⟩

/-- On a well-formed board an available cell has in-range coordinates. -/
lemma available_lt {b : Board} (hwf : b.WF) {row col : Nat}
    (hav : b.is_square_available row col = some true) :
    row < 3 ∧ col < 3 := by
  obtain ⟨x0, x1, x2, x3, x4, x5, x6, x7, x8, hsq⟩ := hwf.destruct
  obtain ⟨sq, m⟩ := b
  simp only at hsq
  subst hsq
  have hrow : row < 3 := by
    by_contra h
    obtain ⟨k, rfl⟩ : ∃ k, row = k + 3 := ⟨row - 3, by omega⟩
    simp [Board.is_square_available, Board.getCell?] at hav
  refine ⟨hrow, ?_⟩
  by_contra h
  obtain ⟨k, rfl⟩ : ∃ k, col = k + 3 := ⟨col - 3, by omega⟩
  interval_cases row <;> simp [Board.is_square_available, Board.getCell?] at hav

/-- On a well-formed board, marking an available cell with a non-empty
player value succeeds, preserves well-formedness, and increments both
the counter and the true number of non-empty cells. -/
lemma mark_square_spec {b : Board} (hwf : b.WF) (row col p : Nat)
    (hp : p ≠ EMPTY)
    (hav : b.is_square_available row col = some true) :
    ∃ b2, b.mark_square row col p = some b2 ∧ b2.WF ∧
      b2.marked_squares = b.marked_squares + 1 ∧
      b2.countNonEmpty = b.countNonEmpty + 1 := by
  obtain ⟨hrow, hcol⟩ := available_lt hwf hav
  obtain ⟨x0, x1, x2, x3, x4, x5, x6, x7, x8, hsq⟩ := hwf.destruct
  obtain ⟨sq, m⟩ := b
  simp only at hsq
  subst hsq
  rw [EMPTY] at hp
  interval_cases row <;> interval_cases col <;>
    (simp [Board.is_square_available, Board.getCell?, EMPTY] at hav
     subst hav
     refine ⟨_, rfl, ⟨by simp, by simp⟩, rfl, ?_⟩
     simp [Board.countNonEmpty, List.countP_cons, List.countP_nil, hp, EMPTY]
     ring)

/-- Bounding the number of non-empty cells of a well-formed grid. -/
lemma countNonEmpty_le_nine {b : Board} (hwf : b.WF) : b.countNonEmpty ≤ 9 := by
  obtain ⟨x0, x1, x2, x3, x4, x5, x6, x7, x8, hsq⟩ := hwf.destruct
  obtain ⟨sq, m⟩ := b
  simp only at hsq
  subst hsq
  simp [Board.countNonEmpty, List.countP_cons, List.countP_nil]
  split_ifs <;> omega

/-- What one successful click does, in full: the cell is marked, the
game is over exactly when the mover now wins or the board is full, and
the player is toggled unconditionally. -/
lemma attemptMove_eq (g : Game) (row col : Nat) (b2 : Board)
    (hover : g.game_over = false)
    (hav : g.board.is_square_available row col = some true)
    (hmark : g.board.mark_square row col g.current_player = some b2) :
    g.attemptMove row col =
      some { board := b2,
             current_player := (g.current_player % 2) + 1,
             game_over := b2.check_win g.current_player || b2.is_board_full } := by
  cases hcw : b2.check_win g.current_player <;> cases hfull : b2.is_board_full <;>
    simp [Game.attemptMove, Game.make_move, hover, hav, hmark, hcw, hfull]

/-- A successful click on a running, invariant-respecting game yields an
invariant-respecting game with one more mark and the player toggled. -/
lemma attemptMove_success {g : Game} (hinv : Inv g) {row col : Nat}
    (hover : g.game_over = false)
    (hav : g.board.is_square_available row col = some true) :
    ∃ g1, g.attemptMove row col = some g1 ∧ Inv g1 ∧
      g1.board.marked_squares = g.board.marked_squares + 1 ∧
      g1.current_player = (g.current_player % 2) + 1 := by
  obtain ⟨hwf, hcount, hplayer⟩ := hinv
  have hp : g.current_player ≠ EMPTY := by
    rcases hplayer with h | h <;> rw [h] <;> simp [PLAYER_X, PLAYER_O, EMPTY]
  obtain ⟨b2, hmark, hwf2, hm2, hc2⟩ := mark_square_spec hwf row col _ hp hav
  refine ⟨_, attemptMove_eq g row col b2 hover hav hmark, ⟨hwf2, ?_, ?_⟩, hm2, rfl⟩
  · rw [hm2, hc2, hcount]
  · rcases hplayer with h | h <;> rw [h]
    · exact Or.inr rfl
    · exact Or.inl rfl

/-- Valid move sequences preserve the invariant; each move adds one mark
and toggles the player, so the final counter is the number of moves and
the final player is determined by the parity of that number. -/
lemma playMoves_inv (ms : List (Nat × Nat)) : ∀ g, Inv g → validMoves g ms = true →
    ∃ g2, playMoves g ms = some g2 ∧ Inv g2 ∧
      g2.board.marked_squares = g.board.marked_squares + ms.length ∧
      g2.current_player =
        (if ms.length % 2 = 0 then g.current_player else (g.current_player % 2) + 1) := by
  induction ms with
  | nil =>
    intro g hinv _
    exact ⟨g, rfl, hinv, by simp [playMoves], by simp⟩
  | cons m rest ih =>
    intro g hinv hvalid
    simp only [validMoves, Bool.and_eq_true, Bool.not_eq_true', beq_iff_eq] at hvalid
    obtain ⟨⟨hover, hav⟩, hrest⟩ := hvalid
    obtain ⟨g1, hstep, hinv1, hm1, hp1⟩ := attemptMove_success hinv hover hav
    simp only [hstep] at hrest
    obtain ⟨g2, hplay, hinv2, hm2, hp2⟩ := ih g1 hinv1 hrest
    refine ⟨g2, ?_, hinv2, ?_, ?_⟩
    · simp [playMoves, hstep, hplay]
    · simp only [List.length_cons]
      omega
    · have hlen : (m :: rest).length = rest.length + 1 := rfl
      rw [hlen, hp2, hp1]
      by_cases hpar : rest.length % 2 = 0
      · rw [if_pos hpar, if_neg (by omega : ¬((rest.length + 1) % 2 = 0))]
      · rw [if_neg hpar, if_pos (by omega : (rest.length + 1) % 2 = 0)]
        rcases hinv.2.2 with hX | hX <;> rw [hX] <;> rfl

/-- The fresh game satisfies the invariant. -/
lemma Inv_init : Inv Game.init :=
  ⟨⟨rfl, by decide⟩, rfl, Or.inl rfl⟩

/-- Cell reads succeed on a well-formed board at in-range coordinates. -/
lemma is_square_available_isSome {b : Board} (hwf : b.WF) {row col : Nat}
    (hrow : row < 3) (hcol : col < 3) :
    (b.is_square_available row col).isSome = true := by
  obtain ⟨x0, x1, x2, x3, x4, x5, x6, x7, x8, hsq⟩ := hwf.destruct
  obtain ⟨sq, m⟩ := b
  simp only at hsq
  subst hsq
  interval_cases row <;> interval_cases col <;> rfl

/-- Marking succeeds on a well-formed board at in-range coordinates. -/
lemma mark_square_isSome {b : Board} (hwf : b.WF) {row col : Nat} (p : Nat)
    (hrow : row < 3) (hcol : col < 3) :
    (b.mark_square row col p).isSome = true := by
  obtain ⟨x0, x1, x2, x3, x4, x5, x6, x7, x8, hsq⟩ := hwf.destruct
  obtain ⟨sq, m⟩ := b
  simp only at hsq
  subst hsq
  interval_cases row <;> interval_cases col <;> rfl

/-- Claim C1: for a player value in {PLAYER_X, PLAYER_O}, `check_win`
returns true iff at least one of the 8 canonical lines (3 rows, 3
columns, 2 diagonals) has all three of its cells equal to that player. -/
theorem claim_C1_check_win_iff (b : Board) (player : Nat)
    (_hp : player = PLAYER_X ∨ player = PLAYER_O) :
    b.check_win player = true ↔ check_win_spec b player := by
  clear _hp
  have hr3 : List.range 3 = [0, 1, 2] := rfl
  simp only [Board.check_win, BOARD_ROWS, BOARD_COLS, hr3, List.any_cons,
    List.any_nil, Bool.or_false, Bool.or_eq_true, Bool.and_eq_true,
    Board.cellIs, beq_iff_eq, check_win_spec, linesSpec,
    List.exists_mem_cons_iff, List.not_mem_nil, List.forall_mem_cons,
    List.forall_mem_nil, and_true, or_false, false_implies, forall_const,
    false_and, exists_false]
  constructor
  · rintro ((((⟨⟨h1, h2⟩, h3⟩ | ⟨⟨h1, h2⟩, h3⟩ | ⟨⟨h1, h2⟩, h3⟩) |
        (⟨⟨h1, h2⟩, h3⟩ | ⟨⟨h1, h2⟩, h3⟩ | ⟨⟨h1, h2⟩, h3⟩)) |
        ⟨⟨h1, h2⟩, h3⟩) | ⟨⟨h1, h2⟩, h3⟩)
    · exact Or.inr (Or.inr (Or.inr (Or.inl ⟨h1, h2, h3⟩)))
    · exact Or.inr (Or.inr (Or.inr (Or.inr (Or.inl ⟨h1, h2, h3⟩))))
    · exact Or.inr (Or.inr (Or.inr (Or.inr (Or.inr (Or.inl ⟨h1, h2, h3⟩)))))
    · exact Or.inl ⟨h1, h2, h3⟩
    · exact Or.inr (Or.inl ⟨h1, h2, h3⟩)
    · exact Or.inr (Or.inr (Or.inl ⟨h1, h2, h3⟩))
    · exact Or.inr (Or.inr (Or.inr (Or.inr (Or.inr (Or.inr (Or.inl ⟨h1, h2, h3⟩))))))
    · exact Or.inr (Or.inr (Or.inr (Or.inr (Or.inr (Or.inr (Or.inr ⟨h1, h2, h3⟩))))))
  · rintro (⟨h1, h2, h3⟩ | ⟨h1, h2, h3⟩ | ⟨h1, h2, h3⟩ | ⟨h1, h2, h3⟩ |
        ⟨h1, h2, h3⟩ | ⟨h1, h2, h3⟩ | ⟨h1, h2, h3⟩ | ⟨h1, h2, h3⟩)
    · exact Or.inl (Or.inl (Or.inr (Or.inl ⟨⟨h1, h2⟩, h3⟩)))
    · exact Or.inl (Or.inl (Or.inr (Or.inr (Or.inl ⟨⟨h1, h2⟩, h3⟩))))
    · exact Or.inl (Or.inl (Or.inr (Or.inr (Or.inr ⟨⟨h1, h2⟩, h3⟩))))
    · exact Or.inl (Or.inl (Or.inl (Or.inl ⟨⟨h1, h2⟩, h3⟩)))
    · exact Or.inl (Or.inl (Or.inl (Or.inr (Or.inl ⟨⟨h1, h2⟩, h3⟩))))
    · exact Or.inl (Or.inl (Or.inl (Or.inr (Or.inr ⟨⟨h1, h2⟩, h3⟩))))
    · exact Or.inl (Or.inr ⟨⟨h1, h2⟩, h3⟩)
    · exact Or.inr ⟨⟨h1, h2⟩, h3⟩

/-- Witness for C1 at a concrete board whose top row is all X. -/
theorem claim_C1_witness :
    ((1 : Nat) = PLAYER_X ∨ (1 : Nat) = PLAYER_O) ∧
    ((Board.mk [[1, 1, 1], [2, 2, 0], [0, 0, 0]] 5).check_win 1 = true ↔
      check_win_spec (Board.mk [[1, 1, 1], [2, 2, 0], [0, 0, 0]] 5) 1) :=
  ⟨Or.inl rfl, claim_C1_check_win_iff _ 1 (Or.inl rfl)⟩

/-- Counterexample to claim C2: after X's winning top-row move
(X plays (0,0), (0,1), (0,2); O plays (1,0), (1,1)), `check_win X` holds
and `game_over` is set, yet `current_player` has been toggled to
`PLAYER_O` — the code toggles the player unconditionally, contradicting
the claim that the current player is not toggled after a winning move. -/
theorem claim_C2_counterexample :
    (playMoves Game.init [(0, 0), (1, 0), (0, 1), (1, 1), (0, 2)]).map
        (fun g => (g.board.check_win PLAYER_X, g.game_over, g.current_player)) =
      some (true, true, PLAYER_O) ∧ PLAYER_O ≠ PLAYER_X := by
  decide

/-- Claim C2 as amended: a successful `attemptMove` on an available cell
of a running game marks the cell for `currentPlayer`, sets `game_over`
exactly when that player now wins or the board is now full (win checked
first, so a winning move is `Won(currentPlayer)` and a full board with
no win is a draw), and ALWAYS toggles the current player — including
after a winning or drawing move. -/
theorem claim_C2_amended_attemptMove (g : Game) (row col : Nat) (b2 : Board)
    (hover : g.game_over = false)
    (hav : g.board.is_square_available row col = some true)
    (hmark : g.board.mark_square row col g.current_player = some b2) :
    g.attemptMove row col =
      some { board := b2,
             current_player := (g.current_player % 2) + 1,
             game_over := b2.check_win g.current_player || b2.is_board_full } :=
  attemptMove_eq g row col b2 hover hav hmark

/-- Witness for the amended C2 at the first move of a fresh game. -/
theorem claim_C2_amended_witness :
    Game.init.game_over = false ∧
    Game.init.board.is_square_available 0 0 = some true ∧
    Game.init.board.mark_square 0 0 Game.init.current_player =
      some (Board.mk [[1, 0, 0], [0, 0, 0], [0, 0, 0]] 1) ∧
    Game.init.attemptMove 0 0 =
      some { board := Board.mk [[1, 0, 0], [0, 0, 0], [0, 0, 0]] 1,
             current_player := (Game.init.current_player % 2) + 1,
             game_over :=
               (Board.mk [[1, 0, 0], [0, 0, 0], [0, 0, 0]] 1).check_win
                   Game.init.current_player ||
                 (Board.mk [[1, 0, 0], [0, 0, 0], [0, 0, 0]] 1).is_board_full } :=
  ⟨rfl, rfl, rfl, claim_C2_amended_attemptMove Game.init 0 0 _ rfl rfl rfl⟩

/-- Claim C3: along any valid move sequence from a fresh game, the fill
counter equals the number of non-empty cells, equals the number of moves
made, stays at most 9, and is 0 again immediately after a restart. -/
theorem claim_C3_fill_count (ms : List (Nat × Nat)) (g2 : Game)
    (hvalid : validMoves Game.init ms = true)
    (hplay : playMoves Game.init ms = some g2) :
    g2.board.marked_squares = g2.board.countNonEmpty ∧
    g2.board.marked_squares = ms.length ∧
    g2.board.marked_squares ≤ 9 ∧
    (g2.restart).board.marked_squares = 0 ∧
    (g2.restart).board.countNonEmpty = 0 := by
  obtain ⟨g2x, hplay2, hinv2, hm2, _⟩ := playMoves_inv ms Game.init Inv_init hvalid
  rw [hplay] at hplay2
  obtain rfl : g2 = g2x := by injection hplay2
  have hz : Game.init.board.marked_squares = 0 := rfl
  refine ⟨hinv2.2.1, by omega, ?_, rfl, rfl⟩
  rw [hinv2.2.1]
  exact countNonEmpty_le_nine hinv2.1

/-- Witness for C3 after the two valid moves (0,0), (1,1). -/
theorem claim_C3_witness :
    validMoves Game.init [(0, 0), (1, 1)] = true ∧
    playMoves Game.init [(0, 0), (1, 1)] =
      some (Game.mk (Board.mk [[1, 0, 0], [0, 2, 0], [0, 0, 0]] 2) 1 false) ∧
    ((Game.mk (Board.mk [[1, 0, 0], [0, 2, 0], [0, 0, 0]] 2) 1 false).board.marked_squares =
        (Game.mk (Board.mk [[1, 0, 0], [0, 2, 0], [0, 0, 0]] 2) 1 false).board.countNonEmpty ∧
      (Game.mk (Board.mk [[1, 0, 0], [0, 2, 0], [0, 0, 0]] 2) 1 false).board.marked_squares =
        [(0, 0), (1, 1)].length ∧
      (Game.mk (Board.mk [[1, 0, 0], [0, 2, 0], [0, 0, 0]] 2) 1 false).board.marked_squares ≤ 9 ∧
      ((Game.mk (Board.mk [[1, 0, 0], [0, 2, 0], [0, 0, 0]] 2) 1 false).restart).board.marked_squares = 0 ∧
      ((Game.mk (Board.mk [[1, 0, 0], [0, 2, 0], [0, 0, 0]] 2) 1 false).restart).board.countNonEmpty = 0) :=
  ⟨by decide, by decide, claim_C3_fill_count [(0, 0), (1, 1)] _ (by decide) (by decide)⟩

/-- Claim C4: once the game is over, a mouse-click event changes nothing
at all (no cell is marked, the counter is untouched), and only the
restart key produces a fresh state. -/
theorem claim_C4_terminal_blocks_moves (g : Game) (x y : Nat)
    (h : g.game_over = true) :
    step g (Event.mouseDown x y) = some g ∧ step g Event.keyR = some g.restart := by
  refine ⟨?_, rfl⟩
  simp [step, handleClick, Game.attemptMove, h]

/-- Witness for C4 at a concrete terminal (won) state. -/
theorem claim_C4_witness :
    (Game.mk (Board.mk [[1, 1, 1], [2, 2, 0], [0, 0, 0]] 5) 2 true).game_over = true ∧
    (step (Game.mk (Board.mk [[1, 1, 1], [2, 2, 0], [0, 0, 0]] 5) 2 true)
        (Event.mouseDown 100 100) =
      some (Game.mk (Board.mk [[1, 1, 1], [2, 2, 0], [0, 0, 0]] 5) 2 true) ∧
    step (Game.mk (Board.mk [[1, 1, 1], [2, 2, 0], [0, 0, 0]] 5) 2 true) Event.keyR =
      some (Game.mk (Board.mk [[1, 1, 1], [2, 2, 0], [0, 0, 0]] 5) 2 true).restart) :=
  ⟨rfl, claim_C4_terminal_blocks_moves _ 100 100 rfl⟩

/-- Claim C5: attempting a move on an already-occupied cell is a no-op:
the whole game state, and in particular the fill count, is unchanged. -/
theorem claim_C5_occupied_noop (g : Game) (row col : Nat)
    (h : g.board.is_square_available row col = some false) :
    g.attemptMove row col = some g ∧
    (g.attemptMove row col).map (fun g1 => g1.board.marked_squares) =
      some g.board.marked_squares := by
  have h1 : g.attemptMove row col = some g := by
    cases hover : g.game_over <;> simp [Game.attemptMove, hover, h]
  exact ⟨h1, by rw [h1]; rfl⟩

/-- Witness for C5: clicking the occupied cell (0, 0). -/
theorem claim_C5_witness :
    (Game.mk (Board.mk [[1, 0, 0], [0, 0, 0], [0, 0, 0]] 1) 2 false).board.is_square_available 0 0 =
      some false ∧
    ((Game.mk (Board.mk [[1, 0, 0], [0, 0, 0], [0, 0, 0]] 1) 2 false).attemptMove 0 0 =
      some (Game.mk (Board.mk [[1, 0, 0], [0, 0, 0], [0, 0, 0]] 1) 2 false) ∧
    ((Game.mk (Board.mk [[1, 0, 0], [0, 0, 0], [0, 0, 0]] 1) 2 false).attemptMove 0 0).map
        (fun g1 => g1.board.marked_squares) =
      some (Game.mk (Board.mk [[1, 0, 0], [0, 0, 0], [0, 0, 0]] 1) 2 false).board.marked_squares) :=
  ⟨rfl, claim_C5_occupied_noop _ 0 0 rfl⟩

/-- Counterexample to claim C6: playing the claimed fixture
X:(0,0)(0,2)(1,1)(2,0)(1,2), O:(0,1)(1,0)(2,1)(2,2) alternately from a
fresh game, X completes the anti-diagonal (0,2)-(1,1)-(2,0) on the 7th
move: `check_win X` is true, the game ends as a win after 7 marks, and
the board is not even full — not a draw as the claim states. -/
theorem claim_C6_counterexample :
    (playMoves Game.init
        [(0, 0), (0, 1), (0, 2), (1, 0), (1, 1), (2, 1), (2, 0), (2, 2), (1, 2)]).map
        (fun g =>
          (g.board.check_win PLAYER_X, g.board.is_board_full, g.board.marked_squares,
            g.game_over)) =
      some (true, false, 7, true) := by
  decide

/-- Claim C6 as amended: the fixture X:(0,0)(0,2)(1,0)(2,1)(2,2),
O:(0,1)(1,1)(1,2)(2,0), played alternately starting with X, is a genuine
draw: all nine moves land, the board is full, neither player satisfies
`check_win`, and the game ends in the draw state. -/
theorem claim_C6_amended_draw :
    (playMoves Game.init
        [(0, 0), (0, 1), (0, 2), (1, 1), (1, 0), (1, 2), (2, 1), (2, 0), (2, 2)]).map
        (fun g =>
          (g.board.is_board_full, g.board.check_win PLAYER_X, g.board.check_win PLAYER_O,
            g.game_over, g.board.marked_squares)) =
      some (true, false, false, true, 9) := by
  decide

/-- Claim C7: from a fresh game, after N valid moves with the game still
running, the player to move is X when N is even and O when N is odd. -/
theorem claim_C7_turn_parity (ms : List (Nat × Nat)) (g2 : Game)
    (hvalid : validMoves Game.init ms = true)
    (hplay : playMoves Game.init ms = some g2)
    (_hrun : g2.game_over = false) :
    g2.current_player = (if ms.length % 2 = 0 then PLAYER_X else PLAYER_O) := by
  obtain ⟨g2x, hplay2, _, _, hp2⟩ := playMoves_inv ms Game.init Inv_init hvalid
  rw [hplay] at hplay2
  obtain rfl : g2 = g2x := by injection hplay2
  rw [hp2]
  by_cases hpar : ms.length % 2 = 0 <;> simp [hpar] <;> rfl

/-- Witness for C7 after one move: O is to move. -/
theorem claim_C7_witness :
    validMoves Game.init [(0, 0)] = true ∧
    playMoves Game.init [(0, 0)] =
      some (Game.mk (Board.mk [[1, 0, 0], [0, 0, 0], [0, 0, 0]] 1) 2 false) ∧
    (Game.mk (Board.mk [[1, 0, 0], [0, 0, 0], [0, 0, 0]] 1) 2 false).game_over = false ∧
    (Game.mk (Board.mk [[1, 0, 0], [0, 0, 0], [0, 0, 0]] 1) 2 false).current_player =
      (if [(0, 0)].length % 2 = 0 then PLAYER_X else PLAYER_O) :=
  ⟨by decide, by decide, by decide,
    claim_C7_turn_parity [(0, 0)] _ (by decide) (by decide) (by decide)⟩

/-- Claim C8: `restart()` always succeeds with no precondition: from any
controller state the board is a fresh empty board (all cells `EMPTY`,
fill count 0, `is_board_empty` true), the current player is `PLAYER_X`,
and the `game_over` flag is cleared. -/
theorem claim_C8_restart (g : Game) :
    g.restart = Game.init ∧
    (g.restart).board.squares =
      [[EMPTY, EMPTY, EMPTY], [EMPTY, EMPTY, EMPTY], [EMPTY, EMPTY, EMPTY]] ∧
    (g.restart).board.marked_squares = 0 ∧
    (g.restart).board.is_board_empty = true ∧
    (g.restart).current_player = PLAYER_X ∧
    (g.restart).game_over = false :=
  ⟨rfl, rfl, rfl, rfl, rfl, rfl⟩

/-- Claim C9: a mouse click at pixel (x, y) targets the cell
`row = y / SQUARE_SIZE`, `col = x / SQUARE_SIZE` (floor division), with
`SQUARE_SIZE = WIDTH / BOARD_COLS`. -/
theorem claim_C9_pixel_to_cell (g : Game) (x y : Nat) :
    handleClick g x y =
      g.attemptMove (y / (WIDTH / BOARD_COLS)) (x / (WIDTH / BOARD_COLS)) ∧
    SQUARE_SIZE = WIDTH / BOARD_COLS :=
  ⟨rfl, rfl⟩

/-- Claim C10: for clicks inside the 600x600 window on a well-formed
board, the computed row and column are in [0, 3), the availability read
succeeds, and the whole click handler never fails (no `IndexError`). -/
theorem claim_C10_click_in_range (g : Game) (x y : Nat)
    (hx : x < WIDTH) (hy : y < HEIGHT) (hwf : g.board.WF) :
    y / SQUARE_SIZE < BOARD_ROWS ∧ x / SQUARE_SIZE < BOARD_COLS ∧
    (g.board.is_square_available (y / SQUARE_SIZE) (x / SQUARE_SIZE)).isSome = true ∧
    (handleClick g x y).isSome = true := by
  rw [WIDTH] at hx
  rw [HEIGHT] at hy
  have hrow : y / SQUARE_SIZE < 3 := by rw [SQUARE_SIZE, WIDTH, BOARD_COLS]; omega
  have hcol : x / SQUARE_SIZE < 3 := by rw [SQUARE_SIZE, WIDTH, BOARD_COLS]; omega
  have hav := is_square_available_isSome hwf hrow hcol
  refine ⟨hrow, hcol, hav, ?_⟩
  cases hover : g.game_over
  · obtain ⟨av, havs⟩ := Option.isSome_iff_exists.mp hav
    cases av
    · simp [handleClick, Game.attemptMove, hover, havs]
    · have hmk := mark_square_isSome hwf g.current_player hrow hcol
      obtain ⟨b2, hb2⟩ := Option.isSome_iff_exists.mp hmk
      simp only [handleClick, Game.attemptMove, hover, havs, Game.make_move, hb2,
        Bool.false_eq_true, if_false, if_true]
      split <;> (try split) <;> rfl
  · simp [handleClick, Game.attemptMove, hover]

/-- Witness for C10 at the fresh game and the click (599, 250). -/
theorem claim_C10_witness :
    (599 : Nat) < WIDTH ∧ (250 : Nat) < HEIGHT ∧ Game.init.board.WF ∧
    (250 / SQUARE_SIZE < BOARD_ROWS ∧ 599 / SQUARE_SIZE < BOARD_COLS ∧
      (Game.init.board.is_square_available (250 / SQUARE_SIZE) (599 / SQUARE_SIZE)).isSome = true ∧
      (handleClick Game.init 599 250).isSome = true) :=
  ⟨by decide, by decide, ⟨rfl, by decide⟩,
    claim_C10_click_in_range Game.init 599 250 (by decide) (by decide) ⟨rfl, by decide⟩⟩

end TicTacToe
